import Mathlib

/-
Formal model of the cliff-map repository.

Covered source files:
- src/lib/cog-utils.ts (tile naming: getCopernicusTileUrl, getCogProtocolUrl)
- src/app/api/cog/[...path]/route.ts (the COG byte-range proxy GET handler)
- src/lib/slope-utils.ts (calculateSlopeAngle, haversineDistance,
  calculateSlopeGrid, getSlopeColor, createSlopeGeoJSON)
- src/lib/cliff-detector.ts (its own calculateSlopeAngle)

Modelling conventions:
- JavaScript numbers are idealised as exact arithmetic: rationals where the
  code is pure field-and-floor arithmetic (tile naming, colors, GeoJSON),
  reals where transcendental functions occur (Haversine, arctangent).
- Fetch/IO is modelled by passing the upstream outcome as an explicit value.
- JavaScript template strings that serialise numeric color components are
  modelled by a structured value (CssColor) holding the components.
-/

/-- JavaScript String.prototype.padStart with a single-character pad. -/
def jsPadStart (s : String) (len : Nat) (c : Char) : String :=
  if s.length < len then String.mk (List.replicate (len - s.length) c) ++ s else s

namespace CogUtils

/-- The tile-name computation inside getCopernicusTileUrl
(src/lib/cog-utils.ts lines 21-35): floor both coordinates, choose the
hemisphere letter, zero-pad the magnitude (2 digits lat, 3 digits lon). -/
def copernicusTileName (lat lon : ℚ) : String :=
  let tileLat : Int := ⌊lat⌋
  let tileLon : Int := ⌊lon⌋
  let latHemi : String := if tileLat ≥ 0 then "N" else "S"
  let lonHemi : String := if tileLon ≥ 0 then "E" else "W"
  let latStr : String := jsPadStart (toString tileLat.natAbs) 2 '0'
  let lonStr : String := jsPadStart (toString tileLon.natAbs) 3 '0'
  "Copernicus_DSM_COG_10_" ++ latHemi ++ latStr ++ "_00_" ++ lonHemi ++ lonStr ++ "_00_DEM"

/-- getCopernicusTileUrl (src/lib/cog-utils.ts lines 21-39). -/
def getCopernicusTileUrl (lat lon : ℚ) : String :=
  "https://copernicus-dem-30m.s3.amazonaws.com/" ++ copernicusTileName lat lon
    ++ "/" ++ copernicusTileName lat lon ++ ".tif"

/-- The tile-name computation duplicated inside getCogProtocolUrl
(src/lib/cog-utils.ts lines 48-62); kept as a separate definition because the
source duplicates the code rather than calling getCopernicusTileUrl. -/
def cogProtocolTileName (lat lon : ℚ) : String :=
  let tileLat : Int := ⌊lat⌋
  let tileLon : Int := ⌊lon⌋
  let latHemi : String := if tileLat ≥ 0 then "N" else "S"
  let lonHemi : String := if tileLon ≥ 0 then "E" else "W"
  let latStr : String := jsPadStart (toString tileLat.natAbs) 2 '0'
  let lonStr : String := jsPadStart (toString tileLon.natAbs) 3 '0'
  "Copernicus_DSM_COG_10_" ++ latHemi ++ latStr ++ "_00_" ++ lonHemi ++ lonStr ++ "_00_DEM"

/-- getCogProtocolUrl (src/lib/cog-utils.ts lines 48-68); window.location.origin
is passed in as the `origin` argument. -/
def getCogProtocolUrl (origin : String) (lat lon : ℚ) : String :=
  "cog://" ++ origin ++ "/api/cog/" ++ cogProtocolTileName lat lon
    ++ "/" ++ cogProtocolTileName lat lon ++ ".tif#dem"

/-- Written from the spec's words (section 4.1 and the tile-naming contract in
section 6): the canonical identifier built from already-floored integer
degrees, hemisphere letter by sign with zero treated as non-negative, magnitude
zero-padded to 2 digits (latitude) and 3 digits (longitude). Used to compare
the code's tile name against the spec's contract. -/
def canonicalTileName (tileLat tileLon : Int) : String :=
  let latHemi : String := if tileLat ≥ 0 then "N" else "S"
  let lonHemi : String := if tileLon ≥ 0 then "E" else "W"
  let latStr : String := jsPadStart (toString tileLat.natAbs) 2 '0'
  let lonStr : String := jsPadStart (toString tileLon.natAbs) 3 '0'
  "Copernicus_DSM_COG_10_" ++ latHemi ++ latStr ++ "_00_" ++ lonHemi ++ lonStr ++ "_00_DEM"

end CogUtils

namespace CogProxy

/-- The headers of an upstream S3 response that the proxy inspects. -/
structure S3Response where
  status : Nat
  contentType : Option String
  contentLength : Option String
  contentRange : Option String
  acceptRanges : Option String
deriving DecidableEq

/-- Outcome of the `fetch(s3Url, { headers })` call: either a response, or a
thrown exception (network-level failure), modelled as an explicit value. -/
inductive FetchOutcome where
  | ok (r : S3Response)
  | thrown
deriving DecidableEq

/-- The body of the proxy's response: the upstream body passed through, or a
JSON error object `\x7b "error": message \x7d`. -/
inductive RespBody where
  | passthrough
  | errorJson (message : String)
deriving DecidableEq

/-- What the route handler returns: status, headers (in insertion order) and
body. NextResponse.json responses carry only a JSON content type. -/
structure ProxyResponse where
  status : Nat
  headers : List (String × String)
  body : RespBody
deriving DecidableEq

/-- The WHATWG fetch `Response.ok` flag: status in the range 200-299. -/
def respOk (status : Nat) : Bool := 200 ≤ status && status ≤ 299

/-- The reconstructed upstream URL (route.ts: path segments joined with `/`
appended to the fixed bucket origin). -/
def cogS3Url (path : List String) : String :=
  "https://copernicus-dem-30m.s3.amazonaws.com/" ++ String.intercalate "/" path

/-- The four CORS headers the GET handler sets on its pass-through response,
in insertion order (route.ts lines 100-104). -/
def corsHeaders : List (String × String) :=
  [("Access-Control-Allow-Origin", "*"),
   ("Access-Control-Allow-Methods", "GET, HEAD, OPTIONS"),
   ("Access-Control-Allow-Headers", "Range"),
   ("Access-Control-Expose-Headers", "Content-Range, Content-Length, Accept-Ranges")]

/-- A header copied from the upstream response when present (the
`if (x) responseHeaders.set(...)` pattern of route.ts lines 107-117). -/
def optionHeader (key : String) (value : Option String) : List (String × String) :=
  match value with
  | some v => [(key, v)]
  | none => []

/-- The GET handler of the COG proxy (route.ts GET, lines 69-130).
`path` is the catch-all route segment list, `rangeHeader` the inbound Range
header, `outcome` the result of the upstream fetch. The fetch is performed on
`cogS3Url path` with the Range header forwarded verbatim when present; only
the response construction is observable here. -/
def GET (path : List String) (rangeHeader : Option String) (outcome : FetchOutcome) :
    ProxyResponse :=
  match outcome with
  | .thrown =>
      { status := 500
        headers := [("Content-Type", "application/json")]
        body := .errorJson "Failed to fetch COG file" }
  | .ok r =>
      if !respOk r.status && r.status != 206 then
        { status := r.status
          headers := [("Content-Type", "application/json")]
          body := .errorJson ("S3 error: " ++ toString r.status) }
      else
        { status := r.status
          headers := corsHeaders
            ++ optionHeader "Content-Type" r.contentType
            ++ optionHeader "Content-Length" r.contentLength
            ++ optionHeader "Content-Range" r.contentRange
            ++ optionHeader "Accept-Ranges" r.acceptRanges
          body := .passthrough }

end CogProxy

namespace CliffDetector

/-- calculateSlopeAngle from src/lib/cliff-detector.ts lines 17-19:
`Math.atan(heightDiff / horizontalDist) * (180 / Math.PI)` with no
zero-distance guard and no absolute value. JavaScript division of a nonzero
number by zero yields plus or minus infinity, whose arctangent is plus or
minus pi over 2 (so plus or minus 90 degrees); 0/0 yields NaN, modelled as
`none`. -/
noncomputable def calculateSlopeAngle (heightDiff horizontalDist : ℝ) : Option ℝ :=
  if horizontalDist = 0 then
    if heightDiff = 0 then none
    else if 0 < heightDiff then some 90 else some (-90)
  else some (Real.arctan (heightDiff / horizontalDist) * (180 / Real.pi))

end CliffDetector

namespace SlopeUtils

/-- JavaScript Math.atan2(y, x). -/
noncomputable def mathAtan2 (y x : ℝ) : ℝ :=
  if 0 < x then Real.arctan (y / x)
  else if x < 0 then
    (if 0 ≤ y then Real.arctan (y / x) + Real.pi else Real.arctan (y / x) - Real.pi)
  else
    (if 0 < y then Real.pi / 2 else if y < 0 then -(Real.pi / 2) else 0)

/-- calculateSlopeAngle from src/lib/slope-utils.ts lines 171-174: a guard
returns 0 when the distance is exactly 0, otherwise
`Math.atan(Math.abs(elevDiff) / distance) * (180 / Math.PI)`. -/
noncomputable def calculateSlopeAngle (elevDiff distance : ℝ) : ℝ :=
  if distance = 0 then 0 else Real.arctan (|elevDiff| / distance) * (180 / Real.pi)

/-- haversineDistance from src/lib/slope-utils.ts lines 179-196, with Earth
radius 6371000 m. Math.sqrt of a negative argument (impossible here up to
rounding, since a stays in the unit interval) would be NaN in JavaScript;
Real.sqrt clamps to 0 instead. -/
noncomputable def haversineDistance (lat1 lng1 lat2 lng2 : ℝ) : ℝ :=
  let R : ℝ := 6371000
  let dLat := (lat2 - lat1) * (Real.pi / 180)
  let dLng := (lng2 - lng1) * (Real.pi / 180)
  let a := Real.sin (dLat / 2) * Real.sin (dLat / 2) +
    Real.cos (lat1 * (Real.pi / 180)) * Real.cos (lat2 * (Real.pi / 180)) *
      Real.sin (dLng / 2) * Real.sin (dLng / 2)
  let c := 2 * mathAtan2 (Real.sqrt a) (Real.sqrt (1 - a))
  R * c

/-- The JavaScript expression `slopes.length > 0 ? Math.max(...slopes) : 0`
(slope-utils.ts line 280). -/
noncomputable def jsMaxList : List ℝ → ℝ
  | [] => 0
  | h :: t => t.foldl max h

/-- One slope cell (slope-utils.ts interface SlopeCell), generic in the
number type so the same record serves the real-valued grid and decidable
rational instances. -/
structure SlopeCell (K : Type) where
  lng : K
  lat : K
  slope : K
  elevation : K
deriving DecidableEq

/-- calculateSlopeGrid from src/lib/slope-utils.ts lines 243-292. The nested
for loops with `continue` on a null base sample become a bind over row
indices and a filterMap over column indices; out-of-range index access is
modelled by getD with the null default. The three conditional
`slopes.push(...)` calls become the concatenation of up-to-one-element
lists, in source order (right, up, diagonal). -/
noncomputable def calculateSlopeGrid (elevations : List (List (Option ℝ)))
    (lngs lats : List ℝ) : List (SlopeCell ℝ) :=
  let rows := elevations.length
  let cols := (elevations.headD []).length
  (List.range (rows - 1)).flatMap fun j =>
    (List.range (cols - 1)).filterMap fun i =>
      match (elevations.getD j []).getD i none with
      | none => none
      | some elev =>
        let elevRight := (elevations.getD j []).getD (i + 1) none
        let elevUp := (elevations.getD (j + 1) []).getD i none
        let elevDiag := (elevations.getD (j + 1) []).getD (i + 1) none
        let distRight := haversineDistance (lats.getD j 0) (lngs.getD i 0)
          (lats.getD j 0) (lngs.getD (i + 1) 0)
        let distUp := haversineDistance (lats.getD j 0) (lngs.getD i 0)
          (lats.getD (j + 1) 0) (lngs.getD i 0)
        let slopes : List ℝ :=
          (match elevRight with
            | some er => [calculateSlopeAngle (er - elev) distRight]
            | none => []) ++
          (match elevUp with
            | some eu => [calculateSlopeAngle (eu - elev) distUp]
            | none => []) ++
          (match elevDiag with
            | some ed => [calculateSlopeAngle (ed - elev)
                (Real.sqrt (distRight * distRight + distUp * distUp))]
            | none => [])
        some
          { lng := (lngs.getD i 0 + lngs.getD (i + 1) 0) / 2
            lat := (lats.getD j 0 + lats.getD (j + 1) 0) / 2
            slope := jsMaxList slopes
            elevation := elev }

/-- Written from the spec's words (section 4.4 and claim C5): the maximum of
the up to three directional slopes that are available, 0 when none is. -/
noncomputable def specMax3 (a b c : Option ℝ) : ℝ :=
  match [a, b, c].filterMap id with
  | [] => 0
  | h :: t => t.foldl max h

/-- Written from the spec's words (amended claim C2): the number of grid
positions (j, i) with j < rows - 1 and i < cols - 1 whose base elevation
sample is non-null. -/
def specNonNullBases (elevations : List (List (Option ℝ))) : Nat :=
  ((List.range (elevations.length - 1)).map fun j =>
    (List.range ((elevations.headD []).length - 1)).countP fun i =>
      ((elevations.getD j []).getD i none).isSome).sum

/-- The result of getSlopeColor (slope-utils.ts lines 298-329): either the
CSS keyword string "transparent", or the template string
`rgba(r, g, b, a)` modelled as a structured value holding its numeric
components. -/
inductive CssColor (K : Type) where
  | transparent
  | rgba (r g b : Int) (a : K)
deriving DecidableEq

/-- JavaScript Math.round: round half toward positive infinity. -/
def jsRound {K : Type} [LinearOrderedField K] [FloorRing K] (x : K) : Int :=
  ⌊x + 1 / 2⌋

/-- getSlopeColor from src/lib/slope-utils.ts lines 298-329 (default
minSlope 5 at the call sites that omit it). JavaScript decimal literals
0.33, 0.66, 0.34, 0.3, 0.4, 0.5, 0.7, 0.2 are idealised as the exact
rationals they denote. -/
def getSlopeColor {K : Type} [LinearOrderedField K] [FloorRing K]
    (slopeDegrees minSlope : K) : CssColor K :=
  if slopeDegrees < minSlope then .transparent
  else
    let normalized := min 1 (max 0 ((slopeDegrees - minSlope) / 40))
    if normalized < 33 / 100 then
      let t := normalized / (33 / 100)
      .rgba 255 (jsRound (255 - t * 100)) 0 (3 / 10 + normalized * (4 / 10))
    else if normalized < 66 / 100 then
      let t := (normalized - 33 / 100) / (33 / 100)
      .rgba 255 (jsRound (155 - t * 100)) 0 (5 / 10 + normalized * (3 / 10))
    else
      let t := (normalized - 66 / 100) / (34 / 100)
      .rgba (jsRound (255 - t * 55)) (jsRound (55 - t * 55)) 0
        (7 / 10 + normalized * (2 / 10))

/-- The alpha component of a color; 0 for the fully transparent keyword. -/
def alphaOf {K : Type} [LinearOrderedField K] : CssColor K → K
  | .transparent => 0
  | .rgba _ _ _ a => a

/-- Proof helper: the piecewise alpha ramp of getSlopeColor as a function of
the normalized slope. -/
def slopeAlpha {K : Type} [LinearOrderedField K] (n : K) : K :=
  if n < 33 / 100 then 3 / 10 + n * (4 / 10)
  else if n < 66 / 100 then 5 / 10 + n * (3 / 10)
  else 7 / 10 + n * (2 / 10)

/-- One GeoJSON polygon feature produced by createSlopeGeoJSON: the closed
five-point square ring and the slope, elevation and color properties. -/
structure Feature (K : Type) where
  ring : List (K × K)
  slope : K
  elevation : K
  color : CssColor K
deriving DecidableEq

/-- A GeoJSON feature collection (the `type` discriminator strings carry no
information and are dropped). -/
structure FeatureCollection (K : Type) where
  features : List (Feature K)
deriving DecidableEq

/-- createSlopeGeoJSON from src/lib/slope-utils.ts lines 334-372: the loop
with `continue` below the threshold becomes a filterMap. -/
def createSlopeGeoJSON {K : Type} [LinearOrderedField K] [FloorRing K]
    (cells : List (SlopeCell K)) (cellSize minSlope : K) : FeatureCollection K :=
  { features := cells.filterMap fun cell =>
      if cell.slope < minSlope then none
      else
        let halfSize := cellSize / 2
        some
          { ring := [(cell.lng - halfSize, cell.lat - halfSize),
              (cell.lng + halfSize, cell.lat - halfSize),
              (cell.lng + halfSize, cell.lat + halfSize),
              (cell.lng - halfSize, cell.lat + halfSize),
              (cell.lng - halfSize, cell.lat - halfSize)]
            slope := cell.slope
            elevation := cell.elevation
            color := getSlopeColor cell.slope minSlope } }

end SlopeUtils

/-
Theorems. Helper lemmas come first; each claim of the assessment is settled
by exactly one theorem, marked with its claim id in the doc comment.
-/

namespace CogUtils

/-- C6: the tile name produced by getCopernicusTileUrl is the canonical
identifier built from the floored coordinates (hemisphere letter by sign with
zero non-negative, magnitude zero-padded to 2 digits for latitude and 3 for
longitude); the function is invariant under flooring its arguments, and the
two concrete examples of the spec hold. -/
theorem getCopernicusTileUrl_canonical :
    (∀ lat lon : ℚ, copernicusTileName lat lon = canonicalTileName ⌊lat⌋ ⌊lon⌋)
    ∧ (∀ lat lon : ℚ,
        getCopernicusTileUrl lat lon = getCopernicusTileUrl (⌊lat⌋ : ℚ) (⌊lon⌋ : ℚ))
    ∧ copernicusTileName (51.2 : ℚ) (7.9 : ℚ)
        = "Copernicus_DSM_COG_10_N51_00_E007_00_DEM"
    ∧ copernicusTileName (-5.0 : ℚ) (-12.3 : ℚ)
        = "Copernicus_DSM_COG_10_S05_00_W013_00_DEM" := by
  refine ⟨fun lat lon => rfl, fun lat lon => ?_, ?_, ?_⟩
  · simp [getCopernicusTileUrl, copernicusTileName, Int.floor_intCast]
  · have h1 : ⌊(51.2 : ℚ)⌋ = 51 := by norm_num
    have h2 : ⌊(7.9 : ℚ)⌋ = 7 := by norm_num
    simp only [copernicusTileName, h1, h2]
    decide
  · have h1 : ⌊(-5.0 : ℚ)⌋ = -5 := by norm_num
    have h2 : ⌊(-12.3 : ℚ)⌋ = -13 := by norm_num
    simp only [copernicusTileName, h1, h2]
    decide

/-- C10: the tile name embedded in the URL returned by getCopernicusTileUrl
is the same string as the tile name embedded in the proxy path of
getCogProtocolUrl, for every latitude, longitude and window origin. -/
theorem tileName_duplicates_agree :
    ∀ (origin : String) (lat lon : ℚ),
      copernicusTileName lat lon = cogProtocolTileName lat lon
      ∧ getCopernicusTileUrl lat lon
          = "https://copernicus-dem-30m.s3.amazonaws.com/" ++ copernicusTileName lat lon
            ++ "/" ++ copernicusTileName lat lon ++ ".tif"
      ∧ getCogProtocolUrl origin lat lon
          = "cog://" ++ origin ++ "/api/cog/" ++ cogProtocolTileName lat lon
            ++ "/" ++ cogProtocolTileName lat lon ++ ".tif#dem" :=
  fun _ _ _ => ⟨rfl, rfl, rfl⟩

end CogUtils

namespace CogProxy

/-- C1 (counterexample): a GET request with a Range header whose upstream
fetch returns 404 is answered with status 404 but WITHOUT any CORS headers
(the error branch uses NextResponse.json and never sets them), and the same
holds for the 500 response when the fetch throws — contradicting the claim
that CORS headers are attached regardless of outcome. -/
theorem get_error_responses_lack_cors :
    (GET ["Copernicus_DSM_COG_10_N51_00_E007_00_DEM", "Copernicus_DSM_COG_10_N51_00_E007_00_DEM.tif"]
        (some "bytes=0-99") (.ok ⟨404, none, none, none, none⟩)).status = 404
    ∧ (GET ["Copernicus_DSM_COG_10_N51_00_E007_00_DEM", "Copernicus_DSM_COG_10_N51_00_E007_00_DEM.tif"]
        (some "bytes=0-99") (.ok ⟨404, none, none, none, none⟩)).body
        = .errorJson ("S3 error: " ++ toString 404)
    ∧ (GET ["Copernicus_DSM_COG_10_N51_00_E007_00_DEM", "Copernicus_DSM_COG_10_N51_00_E007_00_DEM.tif"]
        (some "bytes=0-99") (.ok ⟨404, none, none, none, none⟩)).headers.lookup
        "Access-Control-Allow-Origin" = none
    ∧ (GET ["Copernicus_DSM_COG_10_N51_00_E007_00_DEM", "Copernicus_DSM_COG_10_N51_00_E007_00_DEM.tif"]
        (some "bytes=0-99") .thrown).status = 500
    ∧ (GET ["Copernicus_DSM_COG_10_N51_00_E007_00_DEM", "Copernicus_DSM_COG_10_N51_00_E007_00_DEM.tif"]
        (some "bytes=0-99") .thrown).headers.lookup
        "Access-Control-Allow-Origin" = none := by
  decide

/-- C1 (amended): the permissive CORS headers (allow origin *, allow methods
GET, HEAD, OPTIONS, allow header Range, expose headers Content-Range,
Content-Length, Accept-Ranges) are attached to a GET response exactly on the
upstream-success path (upstream status 200-299, which includes 206); the JSON
error responses for a non-ok upstream status and for a thrown fetch carry no
CORS headers at all. -/
theorem get_cors_on_success_path :
    ∀ (path : List String) (rng : Option String) (r : S3Response),
      (respOk r.status = true →
        (GET path rng (.ok r)).headers.lookup "Access-Control-Allow-Origin" = some "*"
        ∧ (GET path rng (.ok r)).headers.lookup "Access-Control-Allow-Methods"
            = some "GET, HEAD, OPTIONS"
        ∧ (GET path rng (.ok r)).headers.lookup "Access-Control-Allow-Headers"
            = some "Range"
        ∧ (GET path rng (.ok r)).headers.lookup "Access-Control-Expose-Headers"
            = some "Content-Range, Content-Length, Accept-Ranges")
      ∧ (respOk r.status = false →
        (GET path rng (.ok r)).headers.lookup "Access-Control-Allow-Origin" = none)
      ∧ (GET path rng .thrown).headers.lookup "Access-Control-Allow-Origin" = none := by
  intro path rng r
  refine ⟨fun h => ?_, fun h => ?_, by simp [GET, List.lookup]⟩
  · simp [GET, h, corsHeaders, List.lookup]
  · have h206 : r.status ≠ 206 := by
      intro he
      rw [he] at h
      simp [respOk] at h
    simp [GET, h, h206, List.lookup]

/-- C1 (witness): the amended theorem applied at upstream status 200 and at
upstream status 404. -/
theorem get_cors_on_success_path_witness :
    (GET ["t.tif"] none (.ok ⟨200, none, none, none, none⟩)).headers.lookup
        "Access-Control-Allow-Origin" = some "*"
    ∧ (GET ["t.tif"] none (.ok ⟨404, none, none, none, none⟩)).headers.lookup
        "Access-Control-Allow-Origin" = none :=
  ⟨((get_cors_on_success_path ["t.tif"] none ⟨200, none, none, none, none⟩).1
      (by decide)).1,
   (get_cors_on_success_path ["t.tif"] none ⟨404, none, none, none, none⟩).2.1
      (by decide)⟩

/-- C4 (counterexample): an upstream status of 201 — which is neither 200 nor
206 — is NOT turned into a JSON error: response.ok covers every 2xx status,
so the proxy passes body and status through, contradicting the claim that any
status other than 200 or 206 yields the error body. -/
theorem get_status_201_passes_through :
    (GET ["x.tif"] none (.ok ⟨201, none, none, none, none⟩)).status = 201
    ∧ (GET ["x.tif"] none (.ok ⟨201, none, none, none, none⟩)).body = .passthrough
    ∧ ¬(GET ["x.tif"] none (.ok ⟨201, none, none, none, none⟩)).body
        = .errorJson ("S3 error: " ++ toString 201) := by
  decide

/-- C4 (amended): the proxy always echoes the upstream status; an upstream
status outside 200-299 yields the JSON body with error message
`S3 error: <status>`, and any 2xx upstream status (not only 200 and 206)
passes the body through. -/
theorem get_upstream_status_handling :
    ∀ (path : List String) (rng : Option String) (r : S3Response),
      ((GET path rng (.ok r)).status = r.status)
      ∧ (¬(200 ≤ r.status ∧ r.status ≤ 299) →
          (GET path rng (.ok r)).body = .errorJson ("S3 error: " ++ toString r.status))
      ∧ ((200 ≤ r.status ∧ r.status ≤ 299) →
          (GET path rng (.ok r)).body = .passthrough) := by
  intro path rng r
  have hiff : respOk r.status = true ↔ (200 ≤ r.status ∧ r.status ≤ 299) := by
    simp [respOk]
  refine ⟨?_, fun h => ?_, fun h => ?_⟩
  · simp only [GET]
    split <;> rfl
  · have hb : respOk r.status = false := by
      rcases Bool.eq_false_or_eq_true (respOk r.status) with hc | hc
      · exact absurd (hiff.mp hc) h
      · exact hc
    have h206 : r.status ≠ 206 := by
      intro he
      rw [he] at hb
      simp [respOk] at hb
    simp [GET, hb, h206]
  · have hb : respOk r.status = true := hiff.mpr h
    simp [GET, hb]

/-- C4 (witness): the amended theorem applied at upstream statuses 404
(error relay) and 206 (pass-through). -/
theorem get_upstream_status_handling_witness :
    (GET ["t.tif"] none (.ok ⟨404, none, none, none, none⟩)).body
        = .errorJson ("S3 error: " ++ toString 404)
    ∧ (GET ["t.tif"] none (.ok ⟨206, none, none, none, none⟩)).body = .passthrough :=
  ⟨(get_upstream_status_handling ["t.tif"] none ⟨404, none, none, none, none⟩).2.1
      (by decide),
   (get_upstream_status_handling ["t.tif"] none ⟨206, none, none, none, none⟩).2.2
      (by decide)⟩

end CogProxy

namespace SlopeUtils

/-- Math.atan2 is non-negative when its first argument is. -/
theorem mathAtan2_nonneg {y x : ℝ} (hy : 0 ≤ y) : 0 ≤ mathAtan2 y x := by
  unfold mathAtan2
  split_ifs with h1 h2 h3 h4
  · exact le_trans (by rw [Real.arctan_zero])
      (Real.arctan_strictMono.monotone (div_nonneg hy h1.le))
  · linarith [Real.neg_pi_div_two_lt_arctan (y / x), Real.pi_pos]
  · positivity
  · linarith
  · exact le_refl 0

/-- The Haversine distance is never negative. -/
theorem haversineDistance_nonneg (lat1 lng1 lat2 lng2 : ℝ) :
    0 ≤ haversineDistance lat1 lng1 lat2 lng2 := by
  have key : ∀ a : ℝ, 0 ≤ (6371000 : ℝ) * (2 * mathAtan2 (Real.sqrt a) (Real.sqrt (1 - a))) :=
    fun a => mul_nonneg (by norm_num)
      (mul_nonneg (by norm_num) (mathAtan2_nonneg (Real.sqrt_nonneg _)))
  unfold haversineDistance
  exact key _

/-- With a non-negative distance the guarded slope angle lies in [0, 90). -/
theorem calculateSlopeAngle_bounds (e : ℝ) {d : ℝ} (hd : 0 ≤ d) :
    0 ≤ calculateSlopeAngle e d ∧ calculateSlopeAngle e d < 90 := by
  unfold calculateSlopeAngle
  split_ifs with h
  · norm_num
  · have hdpos : 0 < d := lt_of_le_of_ne hd (Ne.symm h)
    have harg : 0 ≤ |e| / d := div_nonneg (abs_nonneg e) hd
    have h1 : 0 ≤ Real.arctan (|e| / d) :=
      le_trans (by rw [Real.arctan_zero]) (Real.arctan_strictMono.monotone harg)
    have h2 : Real.arctan (|e| / d) < Real.pi / 2 := Real.arctan_lt_pi_div_two _
    constructor
    · positivity
    · have hpi : 0 < Real.pi := Real.pi_pos
      have hm := mul_lt_mul_of_pos_right h2 (show (0 : ℝ) < 180 / Real.pi by positivity)
      calc Real.arctan (|e| / d) * (180 / Real.pi)
          < Real.pi / 2 * (180 / Real.pi) := hm
        _ = 90 := by field_simp; ring

/-- A left fold of max starting from a value in [0, 90) over values in
[0, 90) stays in [0, 90). -/
theorem foldl_max_bounds : ∀ (l : List ℝ) (acc : ℝ), 0 ≤ acc → acc < 90 →
    (∀ s ∈ l, 0 ≤ s ∧ s < 90) → 0 ≤ l.foldl max acc ∧ l.foldl max acc < 90 := by
  intro l
  induction l with
  | nil => intro acc h0 h90 _; exact ⟨h0, h90⟩
  | cons x xs ih =>
    intro acc h0 h90 hall
    simp only [List.foldl_cons]
    refine ih (max acc x) (le_trans h0 (le_max_left _ _)) ?_ ?_
    · exact max_lt h90 (hall x (List.mem_cons_self _ _)).2
    · exact fun s hs => hall s (List.mem_cons_of_mem _ hs)

/-- The JavaScript spread-max of a list of values in [0, 90), with default 0
for the empty list, lies in [0, 90). -/
theorem jsMaxList_bounds {l : List ℝ} (h : ∀ s ∈ l, 0 ≤ s ∧ s < 90) :
    0 ≤ jsMaxList l ∧ jsMaxList l < 90 := by
  cases l with
  | nil => norm_num [jsMaxList]
  | cons hd tl =>
    simp only [jsMaxList]
    exact foldl_max_bounds tl hd (h hd (List.mem_cons_self _ _)).1
      (h hd (List.mem_cons_self _ _)).2 (fun s hs => h s (List.mem_cons_of_mem _ hs))

/-- The slopes list built by three conditional pushes has the same max as the
spec-side maximum over the available directional slopes. -/
theorem jsMaxList_eq_specMax3 (oR oU oD : Option ℝ) (fR fU fD : ℝ → ℝ) :
    jsMaxList
      ((match oR with | some er => [fR er] | none => []) ++
       (match oU with | some eu => [fU eu] | none => []) ++
       (match oD with | some ed => [fD ed] | none => []))
    = specMax3 (oR.map fR) (oU.map fU) (oD.map fD) := by
  cases oR <;> cases oU <;> cases oD <;> rfl

/-- Shape of any cell emitted by calculateSlopeGrid: it comes from a grid
position with a non-null base sample and carries exactly the record the loop
body builds there. -/
theorem mem_calculateSlopeGrid {E : List (List (Option ℝ))} {lngs lats : List ℝ}
    {c : SlopeCell ℝ} (hc : c ∈ calculateSlopeGrid E lngs lats) :
    ∃ j i e, j < E.length - 1 ∧ i < (E.headD []).length - 1 ∧
      (E.getD j []).getD i none = some e ∧
      c = { lng := (lngs.getD i 0 + lngs.getD (i + 1) 0) / 2
            lat := (lats.getD j 0 + lats.getD (j + 1) 0) / 2
            slope := jsMaxList
              ((match (E.getD j []).getD (i + 1) none with
                | some er => [calculateSlopeAngle (er - e)
                    (haversineDistance (lats.getD j 0) (lngs.getD i 0)
                      (lats.getD j 0) (lngs.getD (i + 1) 0))]
                | none => []) ++
               (match (E.getD (j + 1) []).getD i none with
                | some eu => [calculateSlopeAngle (eu - e)
                    (haversineDistance (lats.getD j 0) (lngs.getD i 0)
                      (lats.getD (j + 1) 0) (lngs.getD i 0))]
                | none => []) ++
               (match (E.getD (j + 1) []).getD (i + 1) none with
                | some ed => [calculateSlopeAngle (ed - e)
                    (Real.sqrt
                      (haversineDistance (lats.getD j 0) (lngs.getD i 0)
                          (lats.getD j 0) (lngs.getD (i + 1) 0) *
                        haversineDistance (lats.getD j 0) (lngs.getD i 0)
                          (lats.getD j 0) (lngs.getD (i + 1) 0) +
                        haversineDistance (lats.getD j 0) (lngs.getD i 0)
                            (lats.getD (j + 1) 0) (lngs.getD i 0) *
                          haversineDistance (lats.getD j 0) (lngs.getD i 0)
                            (lats.getD (j + 1) 0) (lngs.getD i 0)))]
                | none => []))
            elevation := e } := by
  simp only [calculateSlopeGrid, List.mem_flatMap, List.mem_filterMap,
    List.mem_range] at hc
  obtain ⟨j, hj, i, hi, heq⟩ := hc
  refine ⟨j, i, ?_⟩
  rcases hbase : (E.getD j []).getD i none with _ | e
  · rw [hbase] at heq
    exact absurd heq (by simp)
  · rw [hbase] at heq
    simp only [Option.some.injEq] at heq
    exact ⟨e, hj, hi, rfl, heq.symm⟩

/-- Length of a filterMap as a countP over the inputs. -/
theorem filterMap_length_countP (f : ℕ → Option (SlopeCell ℝ)) (l : List ℕ) :
    (l.filterMap f).length = l.countP fun i => (f i).isSome := by
  induction l with
  | nil => rfl
  | cons x xs ih =>
    rcases hx : f x with _ | y <;>
      simp [List.filterMap_cons, List.countP_cons, hx, ih]

/-- Evaluation of the grid on a 2-by-2 matrix whose only non-null sample is
the base of the single interior cell: all three neighbors are null, yet one
cell is emitted, with slope 0. -/
theorem grid_on_all_null_neighbors :
    calculateSlopeGrid [[some 2, none], [none, none]] [0, 1] [0, 1]
      = [{ lng := (1 : ℝ) / 2, lat := 1 / 2, slope := 0, elevation := 2 }] := by
  simp only [calculateSlopeGrid, List.length_cons, List.length_nil, List.headD_cons]
  norm_num [List.range_succ, jsMaxList]
  simp [List.filterMap_cons, jsMaxList]

end SlopeUtils

namespace SlopeUtils

/-- C2 (counterexample): on the matrix [[some 2, null], [null, null]] the
single interior position has ALL THREE neighboring samples null, and yet
calculateSlopeGrid emits a cell for it (with slope 0) — contradicting the
claim that a cell is emitted only if at least one neighbor is non-null. -/
theorem grid_emits_cell_despite_all_null_neighbors :
    calculateSlopeGrid [[some 2, none], [none, none]] [0, 1] [0, 1]
      = [{ lng := (1 : ℝ) / 2, lat := 1 / 2, slope := 0, elevation := 2 }]
    ∧ calculateSlopeGrid [[some 2, none], [none, none]] [0, 1] [0, 1] ≠ [] := by
  refine ⟨grid_on_all_null_neighbors, ?_⟩
  rw [grid_on_all_null_neighbors]
  simp

/-- C2 (amended): calculateSlopeGrid emits exactly one cell per grid position
(j, i) with j < rows - 1 and i < cols - 1 whose BASE sample is non-null — the
neighbors play no role in whether the cell exists, and a cell whose three
neighbors are all null is still emitted (with slope 0). -/
theorem calculateSlopeGrid_length_eq_nonNullBases
    (E : List (List (Option ℝ))) (lngs lats : List ℝ) :
    (calculateSlopeGrid E lngs lats).length = specNonNullBases E := by
  unfold calculateSlopeGrid specNonNullBases
  rw [List.length_flatMap]
  congr 1
  apply List.map_congr_left
  intro j _
  simp only [Function.comp_apply]
  rw [filterMap_length_countP]
  apply List.countP_congr
  intro i _
  rcases hbase : (E.getD j []).getD i none with _ | e <;> simp [hbase]

/-- C3 (counterexample): the slope-utils calculateSlopeAngle used by the grid
pipeline returns 0 — not 90 — at zero distance because of its explicit guard,
and even the unguarded cliff-detector calculateSlopeAngle returns -90 for a
negative height difference at zero distance, so neither version returns 90
for every nonzero height difference. -/
theorem calculateSlopeAngle_zero_distance_not_ninety :
    calculateSlopeAngle 1 0 = 0 ∧ (0 : ℝ) ≠ 90
    ∧ CliffDetector.calculateSlopeAngle (-1) 0 = some (-90) := by
  refine ⟨?_, by norm_num, ?_⟩
  · simp [calculateSlopeAngle]
  · norm_num [CliffDetector.calculateSlopeAngle]

/-- C3 (amended): calculateSlopeAngle(0, d) is 0 for every nonzero d in both
versions; at zero distance the slope-utils version (the one the grid uses)
returns 0 by its explicit guard, while the unguarded cliff-detector version
follows the atan(plus/minus infinity) limit: 90 only for positive height
differences and -90 for negative ones. -/
theorem calculateSlopeAngle_edge_cases :
    (∀ d : ℝ, d ≠ 0 → calculateSlopeAngle 0 d = 0)
    ∧ (∀ h : ℝ, calculateSlopeAngle h 0 = 0)
    ∧ (∀ d : ℝ, d ≠ 0 → CliffDetector.calculateSlopeAngle 0 d = some 0)
    ∧ (∀ h : ℝ, 0 < h → CliffDetector.calculateSlopeAngle h 0 = some 90)
    ∧ (∀ h : ℝ, h < 0 → CliffDetector.calculateSlopeAngle h 0 = some (-90)) := by
  refine ⟨fun d hd => ?_, fun h => ?_, fun d hd => ?_, fun h hh => ?_, fun h hh => ?_⟩
  · simp [calculateSlopeAngle, hd, Real.arctan_zero]
  · simp [calculateSlopeAngle]
  · simp [CliffDetector.calculateSlopeAngle, hd, Real.arctan_zero]
  · simp [CliffDetector.calculateSlopeAngle, hh, hh.ne']
  · simp [CliffDetector.calculateSlopeAngle, hh, hh.ne, not_lt_of_lt hh]

/-- C3 (witness): the amended edge cases evaluated at concrete inputs. -/
theorem calculateSlopeAngle_edge_cases_witness :
    calculateSlopeAngle 0 2 = 0 ∧ calculateSlopeAngle 7 0 = 0
    ∧ CliffDetector.calculateSlopeAngle 0 2 = some 0
    ∧ CliffDetector.calculateSlopeAngle 7 0 = some 90
    ∧ CliffDetector.calculateSlopeAngle (-7) 0 = some (-90) :=
  ⟨calculateSlopeAngle_edge_cases.1 2 (by norm_num),
   calculateSlopeAngle_edge_cases.2.1 7,
   calculateSlopeAngle_edge_cases.2.2.1 2 (by norm_num),
   calculateSlopeAngle_edge_cases.2.2.2.1 7 (by norm_num),
   calculateSlopeAngle_edge_cases.2.2.2.2 (-7) (by norm_num)⟩

/-- C9: every cell emitted by calculateSlopeGrid has a slope in [0, 90): the
directional slopes take the absolute value of the elevation difference over a
non-negative Haversine (or Pythagorean) distance, so each lies in [0, 90),
and the maximum (0 when no neighbor is usable) stays there. -/
theorem calculateSlopeGrid_slope_mem_Ico (E : List (List (Option ℝ)))
    (lngs lats : List ℝ) (c : SlopeCell ℝ) (hc : c ∈ calculateSlopeGrid E lngs lats) :
    0 ≤ c.slope ∧ c.slope < 90 := by
  obtain ⟨j, i, e, hj, hi, hbase, hcell⟩ := mem_calculateSlopeGrid hc
  subst hcell
  apply jsMaxList_bounds
  intro s hs
  simp only [List.mem_append] at hs
  rcases hs with (hs | hs) | hs
  · rcases hR : (E.getD j []).getD (i + 1) none with _ | er
    · rw [hR] at hs; simp at hs
    · rw [hR] at hs
      simp only [List.mem_singleton] at hs
      subst hs
      exact calculateSlopeAngle_bounds _ (haversineDistance_nonneg _ _ _ _)
  · rcases hU : (E.getD (j + 1) []).getD i none with _ | eu
    · rw [hU] at hs; simp at hs
    · rw [hU] at hs
      simp only [List.mem_singleton] at hs
      subst hs
      exact calculateSlopeAngle_bounds _ (haversineDistance_nonneg _ _ _ _)
  · rcases hD : (E.getD (j + 1) []).getD (i + 1) none with _ | ed
    · rw [hD] at hs; simp at hs
    · rw [hD] at hs
      simp only [List.mem_singleton] at hs
      subst hs
      exact calculateSlopeAngle_bounds _ (Real.sqrt_nonneg _)

/-- C9 (witness): the bound applied to the one cell of a concrete grid. -/
theorem calculateSlopeGrid_slope_mem_Ico_witness :
    ({ lng := (1 : ℝ) / 2, lat := 1 / 2, slope := 0, elevation := 2 } : SlopeCell ℝ)
        ∈ calculateSlopeGrid [[some 2, none], [none, none]] [0, 1] [0, 1]
    ∧ 0 ≤ ({ lng := (1 : ℝ) / 2, lat := 1 / 2, slope := 0, elevation := 2 } :
        SlopeCell ℝ).slope
    ∧ ({ lng := (1 : ℝ) / 2, lat := 1 / 2, slope := 0, elevation := 2 } :
        SlopeCell ℝ).slope < 90 := by
  have hmem : ({ lng := (1 : ℝ) / 2, lat := 1 / 2, slope := 0, elevation := 2 } :
      SlopeCell ℝ) ∈ calculateSlopeGrid [[some 2, none], [none, none]] [0, 1] [0, 1] := by
    rw [grid_on_all_null_neighbors]
    exact List.mem_singleton_self _
  have hb := calculateSlopeGrid_slope_mem_Ico _ _ _ _ hmem
  exact ⟨hmem, hb.1, hb.2⟩

end SlopeUtils

namespace SlopeUtils

/-- C5: every cell emitted by calculateSlopeGrid reports exactly the maximum
of the directional slopes toward those of its right, up and diagonal
neighbors whose elevations are non-null (a null neighbor is excluded and
raises nothing), and 0 when all three are null; the cell also carries the
base elevation. -/
theorem calculateSlopeGrid_slope_eq_max_available (E : List (List (Option ℝ)))
    (lngs lats : List ℝ) (c : SlopeCell ℝ) (hc : c ∈ calculateSlopeGrid E lngs lats) :
    ∃ j i e,
      j < E.length - 1 ∧ i < (E.headD []).length - 1 ∧
      (E.getD j []).getD i none = some e ∧ c.elevation = e ∧
      c.slope = specMax3
        (((E.getD j []).getD (i + 1) none).map fun er =>
          calculateSlopeAngle (er - e)
            (haversineDistance (lats.getD j 0) (lngs.getD i 0)
              (lats.getD j 0) (lngs.getD (i + 1) 0)))
        (((E.getD (j + 1) []).getD i none).map fun eu =>
          calculateSlopeAngle (eu - e)
            (haversineDistance (lats.getD j 0) (lngs.getD i 0)
              (lats.getD (j + 1) 0) (lngs.getD i 0)))
        (((E.getD (j + 1) []).getD (i + 1) none).map fun ed =>
          calculateSlopeAngle (ed - e)
            (Real.sqrt
              (haversineDistance (lats.getD j 0) (lngs.getD i 0)
                  (lats.getD j 0) (lngs.getD (i + 1) 0) *
                haversineDistance (lats.getD j 0) (lngs.getD i 0)
                  (lats.getD j 0) (lngs.getD (i + 1) 0) +
                haversineDistance (lats.getD j 0) (lngs.getD i 0)
                    (lats.getD (j + 1) 0) (lngs.getD i 0) *
                  haversineDistance (lats.getD j 0) (lngs.getD i 0)
                    (lats.getD (j + 1) 0) (lngs.getD i 0)))) := by
  obtain ⟨j, i, e, hj, hi, hbase, hcell⟩ := mem_calculateSlopeGrid hc
  refine ⟨j, i, e, hj, hi, hbase, ?_, ?_⟩
  · rw [hcell]
  · rw [hcell]
    exact jsMaxList_eq_specMax3 _ _ _ _ _ _

/-- C5 (witness): the characterisation applied to the one cell of a concrete
grid whose three neighbors are all null — its slope is the empty maximum 0. -/
theorem calculateSlopeGrid_slope_eq_max_available_witness :
    ({ lng := (1 : ℝ) / 2, lat := 1 / 2, slope := 0, elevation := 2 } : SlopeCell ℝ)
        ∈ calculateSlopeGrid [[some 2, none], [none, none]] [0, 1] [0, 1]
    ∧ ∃ j i e,
      j < ([[some 2, none], [none, none]] : List (List (Option ℝ))).length - 1 ∧
      i < (([[some 2, none], [none, none]] : List (List (Option ℝ))).headD []).length - 1 ∧
      (([[some 2, none], [none, none]] : List (List (Option ℝ))).getD j []).getD i none
          = some e ∧
      ({ lng := (1 : ℝ) / 2, lat := 1 / 2, slope := 0, elevation := 2 } :
          SlopeCell ℝ).elevation = e ∧
      ({ lng := (1 : ℝ) / 2, lat := 1 / 2, slope := 0, elevation := 2 } :
          SlopeCell ℝ).slope = specMax3
        (((([[some 2, none], [none, none]] : List (List (Option ℝ))).getD j []).getD
            (i + 1) none).map fun er =>
          calculateSlopeAngle (er - e)
            (haversineDistance (([0, 1] : List ℝ).getD j 0) (([0, 1] : List ℝ).getD i 0)
              (([0, 1] : List ℝ).getD j 0) (([0, 1] : List ℝ).getD (i + 1) 0)))
        (((([[some 2, none], [none, none]] : List (List (Option ℝ))).getD (j + 1) []).getD
            i none).map fun eu =>
          calculateSlopeAngle (eu - e)
            (haversineDistance (([0, 1] : List ℝ).getD j 0) (([0, 1] : List ℝ).getD i 0)
              (([0, 1] : List ℝ).getD (j + 1) 0) (([0, 1] : List ℝ).getD i 0)))
        (((([[some 2, none], [none, none]] : List (List (Option ℝ))).getD (j + 1) []).getD
            (i + 1) none).map fun ed =>
          calculateSlopeAngle (ed - e)
            (Real.sqrt
              (haversineDistance (([0, 1] : List ℝ).getD j 0) (([0, 1] : List ℝ).getD i 0)
                  (([0, 1] : List ℝ).getD j 0) (([0, 1] : List ℝ).getD (i + 1) 0) *
                haversineDistance (([0, 1] : List ℝ).getD j 0) (([0, 1] : List ℝ).getD i 0)
                  (([0, 1] : List ℝ).getD j 0) (([0, 1] : List ℝ).getD (i + 1) 0) +
                haversineDistance (([0, 1] : List ℝ).getD j 0) (([0, 1] : List ℝ).getD i 0)
                    (([0, 1] : List ℝ).getD (j + 1) 0) (([0, 1] : List ℝ).getD i 0) *
                  haversineDistance (([0, 1] : List ℝ).getD j 0) (([0, 1] : List ℝ).getD i 0)
                    (([0, 1] : List ℝ).getD (j + 1) 0) (([0, 1] : List ℝ).getD i 0)))) := by
  have hmem : ({ lng := (1 : ℝ) / 2, lat := 1 / 2, slope := 0, elevation := 2 } :
      SlopeCell ℝ) ∈ calculateSlopeGrid [[some 2, none], [none, none]] [0, 1] [0, 1] := by
    rw [grid_on_all_null_neighbors]
    exact List.mem_singleton_self _
  exact ⟨hmem, calculateSlopeGrid_slope_eq_max_available _ _ _ _ hmem⟩

end SlopeUtils

namespace SlopeUtils

/-- The alpha component of getSlopeColor above threshold equals the piecewise
ramp evaluated at the clamped normalized slope. -/
theorem alphaOf_getSlopeColor {K : Type} [LinearOrderedField K] [FloorRing K]
    {x m : K} (h : m ≤ x) :
    alphaOf (getSlopeColor x m) = slopeAlpha (min 1 (max 0 ((x - m) / 40))) := by
  rw [getSlopeColor, if_neg (not_lt.mpr h), slopeAlpha]
  dsimp only
  split_ifs with h1 h2 <;> rfl

/-- The piecewise alpha ramp is monotone: each segment increases and each
breakpoint jumps upward. -/
theorem slopeAlpha_mono {K : Type} [LinearOrderedField K] {a b : K}
    (hab : a ≤ b) : slopeAlpha a ≤ slopeAlpha b := by
  unfold slopeAlpha
  split_ifs with h1 h2 h3 h4 h5 <;> linarith

/-- C7: getSlopeColor returns the transparent keyword exactly below the
threshold; at or above the threshold it returns an rgba value, and the alpha
component is monotonically non-decreasing in the slope for a fixed
threshold. -/
theorem getSlopeColor_spec {K : Type} [LinearOrderedField K] [FloorRing K] :
    (∀ x m : K, x < m → getSlopeColor x m = CssColor.transparent)
    ∧ (∀ x m : K, m ≤ x → ∃ r g b a, getSlopeColor x m = CssColor.rgba r g b a)
    ∧ (∀ m x y : K, m ≤ x → x ≤ y →
        alphaOf (getSlopeColor x m) ≤ alphaOf (getSlopeColor y m)) := by
  refine ⟨fun x m h => ?_, fun x m h => ?_, fun m x y hmx hxy => ?_⟩
  · rw [getSlopeColor, if_pos h]
  · rw [getSlopeColor, if_neg (not_lt.mpr h)]
    dsimp only
    split_ifs <;> exact ⟨_, _, _, _, rfl⟩
  · rw [alphaOf_getSlopeColor hmx, alphaOf_getSlopeColor (le_trans hmx hxy)]
    apply slopeAlpha_mono
    have h40 : (0 : K) < 40 := by norm_num
    refine min_le_min (le_refl 1) (max_le_max (le_refl 0) ?_)
    exact (div_le_div_iff_of_pos_right h40).mpr (by linarith)

/-- C7 (witness): the color contract applied over the rationals at slope 3
(below threshold 5), 10 and 20 (above it). -/
theorem getSlopeColor_spec_witness :
    getSlopeColor (3 : ℚ) 5 = CssColor.transparent
    ∧ (∃ r g b a, getSlopeColor (10 : ℚ) 5 = CssColor.rgba r g b a)
    ∧ alphaOf (getSlopeColor (10 : ℚ) 5) ≤ alphaOf (getSlopeColor (20 : ℚ) 5) :=
  ⟨getSlopeColor_spec.1 3 5 (by norm_num),
   getSlopeColor_spec.2.1 10 5 (by norm_num),
   getSlopeColor_spec.2.2 5 10 20 (by norm_num) (by norm_num)⟩

/-- C8 (counterexample): createSlopeGeoJSON with minSlope = 100 does NOT
return an empty feature collection for every input: a (synthetic) cell whose
slope field is 120 passes the `slope < minSlope` filter and yields a
feature. -/
theorem createSlopeGeoJSON_minSlope100_nonempty :
    (createSlopeGeoJSON ([{ lng := 0, lat := 0, slope := 120, elevation := 7 }] :
        List (SlopeCell ℚ)) 1 100).features.length = 1
    ∧ (createSlopeGeoJSON ([{ lng := 0, lat := 0, slope := 120, elevation := 7 }] :
        List (SlopeCell ℚ)) 1 100).features ≠ [] := by
  constructor
  · decide
  · decide

/-- C8 (amended): createSlopeGeoJSON with minSlope = 100 yields an empty
feature collection exactly when every input cell's slope is below 100 — which
holds for every cell list produced by calculateSlopeGrid, whose slopes lie in
[0, 90). -/
theorem createSlopeGeoJSON_minSlope100_empty_iff {K : Type} [LinearOrderedField K]
    [FloorRing K] (cells : List (SlopeCell K)) (cellSize : K) :
    (createSlopeGeoJSON cells cellSize 100).features = [] ↔
      ∀ c ∈ cells, c.slope < 100 := by
  rw [createSlopeGeoJSON]
  dsimp only
  rw [List.filterMap_eq_nil_iff]
  constructor
  · intro h c hc
    have hcnone := h c hc
    by_contra hg
    rw [if_neg hg] at hcnone
    exact absurd hcnone (by simp)
  · intro h c hc
    rw [if_pos (h c hc)]

/-- C8 (witness): the iff applied over the rationals to a single cell of
slope 50, giving the empty feature list. -/
theorem createSlopeGeoJSON_minSlope100_empty_iff_witness :
    (createSlopeGeoJSON ([{ lng := 0, lat := 0, slope := 50, elevation := 1 }] :
        List (SlopeCell ℚ)) 1 100).features = [] :=
  (createSlopeGeoJSON_minSlope100_empty_iff _ _).mpr (by decide)

end SlopeUtils
